import Mathlib

/-!
Verification development for the DLS-data repository.

The repository's per-state Python scripts normalize driver's-license
suspension records to (year-month, category) pairs, classify each record's
reason text or code into one of {FTP, FTA, road_safety, Child_Support,
Other}, aggregate into monthly category tables and combine them into a
cross-state summary.  The definitions below are shallow embeddings of the
relevant Python functions; each definition's comment names the source file
and function it embeds.  Strings are modelled over the ASCII fragment the
data uses (Python `str.upper`, `str.lower`, `str.strip`, `in` and the
regular expressions involved all agree with the embedding on ASCII text).
-/

/-- ASCII uppercase of one character (the ASCII case of Python
`str.upper`). -/
def charUpper (c : Char) : Char :=
  if 'a' ≤ c && c ≤ 'z' then Char.ofNat (c.toNat - 32) else c

/-- ASCII lowercase of one character (the ASCII case of Python
`str.lower`). -/
def charLower (c : Char) : Char :=
  if 'A' ≤ c && c ≤ 'Z' then Char.ofNat (c.toNat + 32) else c

/-- Python `str.upper` (ASCII case). -/
def pyUpper (s : String) : String :=
  ⟨s.toList.map charUpper⟩

/-- Python `str.lower` (ASCII case). -/
def pyLower (s : String) : String :=
  ⟨s.toList.map charLower⟩

/-- The whitespace characters removed by Python `str.strip()`. -/
def isSpaceChar (c : Char) : Bool :=
  c = ' ' || c = '\t' || c = '\n' || c = '\r' || c = '\x0b' || c = '\x0c'

/-- Python `str.strip()`. -/
def pyStrip (s : String) : String :=
  ⟨((s.toList.dropWhile isSpaceChar).reverse.dropWhile isSpaceChar).reverse⟩

/-- Whether the first list is an initial segment of the second. -/
def prefixMatch : List Char → List Char → Bool
  | [], _ => true
  | _ :: _, [] => false
  | a :: as, b :: bs => a == b && prefixMatch as bs

/-- Whether the first list occurs as a contiguous segment of the second. -/
def substrMatch (pat : List Char) : List Char → Bool
  | [] => prefixMatch pat []
  | b :: bs => prefixMatch pat (b :: bs) || substrMatch pat bs

/-- Python's substring test `pat in s`. -/
def pyIn (pat s : String) : Bool :=
  substrMatch pat.toList s.toList

/-- Decimal digit characters (the ASCII case of Python `str.isdigit` and of
regex `\d`). -/
def isDigitChar (c : Char) : Bool :=
  '0' ≤ c && c ≤ '9'

/-- Value of a list of decimal digit characters, most significant first
(the ASCII case of Python `int` on an all-digit string). -/
def digitsVal (l : List Char) : Nat :=
  l.foldl (fun acc c => 10 * acc + (c.toNat - 48)) 0

/-- Decimal digit characters of a natural number, most significant first,
with explicit recursion fuel (any fuel above the argument suffices). -/
def natDigitsAux : Nat → Nat → List Char
  | 0, _ => []
  | fuel + 1, n =>
    if n < 10 then [Char.ofNat (48 + n)]
    else natDigitsAux fuel (n / 10) ++ [Char.ofNat (48 + n % 10)]

/-- Decimal digit characters of a natural number, most significant first. -/
def natDigits (n : Nat) : List Char :=
  natDigitsAux (n + 1) n

/-- Python `f"{n:0wd}"` for a natural number: decimal digits left-padded
with zeros to width `w`. -/
def pyFmt (w : Nat) (n : Nat) : String :=
  let ds := natDigits n
  ⟨List.replicate (w - ds.length) '0' ++ ds⟩

/-- Python `f"{n:0wd}"` for an integer: a negative value keeps its sign and
the pad width counts the sign character. -/
def pyFmtInt (w : Nat) (n : Int) : String :=
  if 0 ≤ n then pyFmt w n.toNat
  else "-" ++ pyFmt (w - 1) n.natAbs

/- ### Colorado (src/Algorithms/Colorado.py) -/

/-- `EXPLICIT_CODE_CATEGORY` of src/Algorithms/Colorado.py. -/
def EXPLICIT_CODE_CATEGORY : List (String × String) := [
  ("SFTC", "FTP"),
  ("RAOC", "road_safety"),
  ("RLSN", "road_safety"),
  ("CDHT", "Other"),
  ("CDJD", "FTA"),
  ("CDOJ", "FTA"),
  ("CDUR", "FTA"),
  ("CDOF", "FTP"),
  ("SNRV", "FTP"),
  ("RAON", "road_safety"),
  ("RAOH", "road_safety"),
  ("RDRC", "road_safety"),
  ("RDUI", "road_safety"),
  ("SDUI", "road_safety"),
  ("RLSC", "road_safety"),
  ("SHAR", "road_safety"),
  ("RVAS", "road_safety"),
  ("RVHM", "road_safety")]

/-- Python `code in EXPLICIT_CODE_CATEGORY` / `EXPLICIT_CODE_CATEGORY[code]`. -/
def lookupExplicitCode (c : String) : Option String :=
  (EXPLICIT_CODE_CATEGORY.find? (fun p => p.1 = c)).map (fun p => p.2)

/-- `FTP_KEYWORDS` of src/Algorithms/Colorado.py. -/
def FTP_KEYWORDS : List String := [
  "failed to comply",
  "failed to pay",
  "failure to pay",
  "ftp",
  "unsatisfied judgment",
  "child support",
  "financial responsibility",
  "no liability insurance",
  "insurance",
  "sr22",
  "non-resident violator",
  "out of state ftp",
  "interlock lease",
  "failed to register",
  "fail to register"]

/-- `FTA_KEYWORDS` of src/Algorithms/Colorado.py. -/
def FTA_KEYWORDS : List String := [
  "failure to appear",
  "fail to appear",
  "fta",
  "default judgment",
  "default judgement",
  "judgment/default",
  "judgment",
  "judgement"]

/-- `ROAD_SAFETY_KEYWORDS` of src/Algorithms/Colorado.py. -/
def ROAD_SAFETY_KEYWORDS : List String := [
  "dui",
  "alcohol",
  "bac",
  "drugs",
  "controlled substance",
  "leave scene",
  "accident",
  "hit and run",
  "vehicular assault",
  "vehicular homicide",
  "excessive points",
  "serious violations",
  "rail crossing",
  "license restriction",
  "restriction",
  "out-of-service",
  "out of service",
  "reckless",
  "speeding"]

/-- Character class `[A-Z0-9]` of the `_extract_code` regex. -/
def isCodeChar (c : Char) : Bool :=
  ('A' ≤ c && c ≤ 'Z') || ('0' ≤ c && c ≤ '9')

/-- ASCII word character, as used by the regex word boundary `\b`. -/
def isWordChar (c : Char) : Bool :=
  c.isAlphanum || c = '_'

/-- Whether `re.match(r"^([A-Z0-9]{k})\b", s)` succeeds on the character
list `l`: the first `k` characters are in the class and position `k` is a
word boundary. -/
def codeMatchAt (l : List Char) (k : Nat) : Bool :=
  (l.take k).length = k && (l.take k).all isCodeChar &&
    (match l.get? k with
     | some c => !isWordChar c
     | none => true)

/-- `_extract_code` of src/Algorithms/Colorado.py:
`re.match(r"^([A-Z0-9]{2,5})\b", col_name.strip())`, greedy from five
characters down to two. -/
def extract_code (s : String) : Option String :=
  let l := (pyStrip s).toList
  if codeMatchAt l 5 then some ⟨l.take 5⟩
  else if codeMatchAt l 4 then some ⟨l.take 4⟩
  else if codeMatchAt l 3 then some ⟨l.take 3⟩
  else if codeMatchAt l 2 then some ⟨l.take 2⟩
  else none

/-- `infer_category_from_text` of src/Algorithms/Colorado.py. -/
def infer_category_from_text (text : String) : String :=
  let desc := pyLower text
  if FTA_KEYWORDS.any (fun kw => pyIn kw desc) then "FTA"
  else if FTP_KEYWORDS.any (fun kw => pyIn kw desc) then "FTP"
  else if ROAD_SAFETY_KEYWORDS.any (fun kw => pyIn kw desc) then "road_safety"
  else "Other"

/-- `infer_category_for_column` of src/Algorithms/Colorado.py.  (A
successfully extracted code has at least two characters, so Python's
truthiness test `if code` never fails on an extracted code.) -/
def infer_category_for_column (col_name : String) : String :=
  match extract_code col_name with
  | some code =>
      match lookupExplicitCode code with
      | some cat => cat
      | none => infer_category_from_text col_name
  | none => infer_category_from_text col_name

/-- Separator class of `re.split(r"[ _\-\.]+", stem)` in
`_infer_year_from_filename`. -/
def isSepChar (c : Char) : Bool :=
  c = ' ' || c = '_' || c = '-' || c = '.'

/-- Python `token.isdigit()` (ASCII case): nonempty and all digits. -/
def pyIsDigit (t : String) : Bool :=
  t.toList ≠ [] && t.toList.all isDigitChar

/-- Tokens of the file-name stem.  `re.split(r"[ _\-\.]+", stem)` also
yields empty tokens at the ends of the stem; empty tokens fail
`token.isdigit()` so they never affect `_infer_year_from_filename` and the
embedding drops them uniformly. -/
def stemTokens (stem : String) : List String :=
  ((stem.toList.splitOnP isSepChar).filter (fun l => l ≠ [])).map (fun l => ⟨l⟩)

/-- `_infer_year_from_filename` of src/Algorithms/Colorado.py, applied to
the file-name stem.  `todayYear` stands for `pd.Timestamp.today().year`,
the calendar year at the moment of the run. -/
def infer_year_from_filename (stem : String) (todayYear : Nat) : Nat :=
  match (stemTokens stem).find? (fun t => pyIsDigit t && t.length = 4) with
  | some t => digitsVal t.toList
  | none => todayYear

/-- The month label `f"{int(yr):04d}-{int(m):02d}"` built by
`build_month_reason_pivot` of src/Algorithms/Colorado.py. -/
def coloradoTimeLabel (yr m : Nat) : String :=
  pyFmt 4 yr ++ "-" ++ pyFmt 2 m

/- ### Maryland (src/Scripts/Maryland.py) -/

/-- The combined text that `infer_category_for_maryland_code` builds from
the two sanction fields; `none` models a missing (NaN) field. -/
def marylandText (sanction_type decode2 : Option String) : String :=
  let t :=
    (match sanction_type with
     | some v => " " ++ pyUpper v
     | none => "") ++
    (match decode2 with
     | some v => " " ++ pyUpper v
     | none => "")
  pyUpper t

/-- `infer_category_for_maryland_code` of src/Scripts/Maryland.py. -/
def infer_category_for_maryland_code (sanction_type decode2 : Option String) : String :=
  let text := marylandText sanction_type decode2
  if pyIn "CHILD SUPPORT" text then "Child_Support"
  else if ["FAIL TO APPEAR", "FAILURE TO APPEAR", "BENCH WARRANT",
    "WARRANT"].any (fun kw => pyIn kw text) then "FTA"
  else if ["FAILURE TO PAY", "FAILED TO PAY", "FTP",
    "INSURANCE", "FINANCIAL", "UNSATISFIED JUDGMENT",
    "NON-RESIDENT VIOLATORS", "RECIPROCITY",
    "VIOLATED RECIPROCITY"].any (fun kw => pyIn kw text) then "FTP"
  else if ["ALCOHOL", "DUI", "BAC", "CHEMICAL TEST", "ADMIN PER SE",
    "INTERLOCK", "A/R", "ALCOHOL CONTENT"].any (fun kw => pyIn kw text) then "road_safety"
  else if pyIn "POINT" text then "road_safety"
  else if ["RECKLESS", "SPEEDING", "ACCIDENT", "FATAL",
    "VEHICULAR"].any (fun kw => pyIn kw text) then "road_safety"
  else if ["MEDICAL", "GRADUATED LICENSE", "GLS",
    "PROVISIONAL"].any (fun kw => pyIn kw text) then "Other"
  else "Other"

/-- The `time` cell Maryland.py builds from the `Year_Posted` and
`Month_Posted` fields of one row:
`f"{int(y):04d}-{int(m):02d}"` when both are present (`pd.notna`), else
`None`; rows with `None` are then dropped.  The arguments are the fields
after Python's `int(...)` conversion; `none` models a NaN field. -/
def marylandTime (year_posted month_posted : Option Int) : Option String :=
  match year_posted, month_posted with
  | some y, some m => some (pyFmtInt 4 y ++ "-" ++ pyFmtInt 2 m)
  | _, _ => none

/- ### Washington (src/Scripts/Washington.py) -/

/-- `infer_category_for_washington_reason` of src/Scripts/Washington.py;
`none` models a NaN `reason`. -/
def infer_category_for_washington_reason : Option String → String
  | none => "Other"
  | some r =>
    let text := pyUpper (pyStrip r)
    if pyIn "CHILD SUPPORT" text then "Child_Support"
    else if ["FAILURE TO APPEAR", "FAIL TO APPEAR", "FAILURE TO ANSWER",
      "FAIL TO ANSWER", "BENCH WARRANT", "WARRANT",
      "FTA"].any (fun kw => pyIn kw text) then "FTA"
    else if ["FAILURE TO MAKE REQUIRED PAYMENT", "FAILED TO PAY", "FTP",
      "UNSATISFIED JUDGMENT", "FINANCIAL RESPONSIBILITY",
      "FAILURE TO COMPLY WITH FINANCIAL", "FAILURE TO PAY FOR DAMAGES",
      "INSTALLMENT PAYMENT", "FINE AND COSTS"].any (fun kw => pyIn kw text) then "FTP"
    else if ["ALCOHOL", "DUI", "UNDER THE INFLUENCE", "ADMINISTRATIVE PER SE",
      "BAC", "CHEMICAL TEST", "REFUSED TO SUBMIT TO TEST",
      "IMPLIED CONSENT", "UNDERAGE ADMINISTRATIVE PER SE",
      ".02 OR HIGHER"].any (fun kw => pyIn kw text) then "road_safety"
    else if ["DRUG", "CONTROLLED SUBSTANCE",
      "UNDER THE INFLUENCE OF DRUGS"].any (fun kw => pyIn kw text) then "road_safety"
    else if ["RECKLESS DRIVING", "HABITUAL TRAFFIC OFFENDER", "HABITUAL OFFENDER",
      "DRIVING WHILE LICENSE SUSPENDED", "DRIVING WHILE LICENSE REVOKED",
      "HIT AND RUN", "FAILURE TO STOP AND RENDER AID", "VEHICULAR ASSAULT",
      "VEHICULAR HOMICIDE", "FLEEING OR EVADING POLICE", "ROADBLOCK",
      "SPEED CONTEST", "RACING", "ACCUMULATION OF CONVICTIONS",
      "POINT"].any (fun kw => pyIn kw text) then "road_safety"
    else if pyIn "USING A MOTOR VEHICLE IN CONNECTION WITH A FELONY" text then "road_safety"
    else if ["MEDICAL", "PHYSICAL OR MENTAL DISABILITY", "RE-EXAM REQUIREMENT",
      "ALC/DRUG ASSESSMENT REQUIREMENT", "MEDICAL CERTIFICATION",
      "MISREPRESENTATION", "VIOLATE RESTRICTIONS", "IGNITION INTERLOCK REQUIREMENT",
      "VIOLATION OF PROBATION", "MINOR IN POSSESSION",
      "WITHDRAWAL"].any (fun kw => pyIn kw text) then "Other"
    else "Other"

/-- Whether any keyword rule of `infer_category_for_washington_reason`
matches the normalized text (the disjunction of all of its keyword
checks, in source order). -/
def washingtonAnyRuleMatches (text : String) : Bool :=
  pyIn "CHILD SUPPORT" text ||
  ["FAILURE TO APPEAR", "FAIL TO APPEAR", "FAILURE TO ANSWER",
    "FAIL TO ANSWER", "BENCH WARRANT", "WARRANT",
    "FTA"].any (fun kw => pyIn kw text) ||
  ["FAILURE TO MAKE REQUIRED PAYMENT", "FAILED TO PAY", "FTP",
    "UNSATISFIED JUDGMENT", "FINANCIAL RESPONSIBILITY",
    "FAILURE TO COMPLY WITH FINANCIAL", "FAILURE TO PAY FOR DAMAGES",
    "INSTALLMENT PAYMENT", "FINE AND COSTS"].any (fun kw => pyIn kw text) ||
  ["ALCOHOL", "DUI", "UNDER THE INFLUENCE", "ADMINISTRATIVE PER SE",
    "BAC", "CHEMICAL TEST", "REFUSED TO SUBMIT TO TEST",
    "IMPLIED CONSENT", "UNDERAGE ADMINISTRATIVE PER SE",
    ".02 OR HIGHER"].any (fun kw => pyIn kw text) ||
  ["DRUG", "CONTROLLED SUBSTANCE",
    "UNDER THE INFLUENCE OF DRUGS"].any (fun kw => pyIn kw text) ||
  ["RECKLESS DRIVING", "HABITUAL TRAFFIC OFFENDER", "HABITUAL OFFENDER",
    "DRIVING WHILE LICENSE SUSPENDED", "DRIVING WHILE LICENSE REVOKED",
    "HIT AND RUN", "FAILURE TO STOP AND RENDER AID", "VEHICULAR ASSAULT",
    "VEHICULAR HOMICIDE", "FLEEING OR EVADING POLICE", "ROADBLOCK",
    "SPEED CONTEST", "RACING", "ACCUMULATION OF CONVICTIONS",
    "POINT"].any (fun kw => pyIn kw text) ||
  pyIn "USING A MOTOR VEHICLE IN CONNECTION WITH A FELONY" text ||
  ["MEDICAL", "PHYSICAL OR MENTAL DISABILITY", "RE-EXAM REQUIREMENT",
    "ALC/DRUG ASSESSMENT REQUIREMENT", "MEDICAL CERTIFICATION",
    "MISREPRESENTATION", "VIOLATE RESTRICTIONS", "IGNITION INTERLOCK REQUIREMENT",
    "VIOLATION OF PROBATION", "MINOR IN POSSESSION",
    "WITHDRAWAL"].any (fun kw => pyIn kw text)

/- ### Texas (src/Scripts/Texas.py) -/

/-- `infer_category_for_texas_action` of src/Scripts/Texas.py; `none`
models a NaN `action_str`. -/
def infer_category_for_texas_action : Option String → String
  | none => "Other"
  | some a =>
    let action := pyUpper (pyStrip a)
    if pyIn "CHILD SUPPORT" action || pyIn "DELINQUENT CHILD SUPPORT" action then "Child_Support"
    else if ["FAILURE TO APPEAR", "FAIL TO APPEAR", "FTA",
      "OUT-OF-STATE FTA", "OUT OF STATE FTA"].any (fun kw => pyIn kw action) then "FTA"
    else if ["NO LIABILITY INSURANCE", "CANCELLED INSURANCE", "INSURANCE",
      "FINANCIAL RESPONSIBILITY", "SR SUSPENSION",
      "SURCHARGE DUE", "DEFAULT INSTALLMENT AGREEMENT", "DEFAULTED INSTALLMENT",
      "LIABILITY JUDGMENT", "OUT OF STATE JUDGMENT", "OUT-OF STATE JUDGMENT",
      "FAILURE TO COMPLY", "FAIL TO COMPLY", "FTC", "OUT-OF STATE FTC", "OUT OF STATE FTC",
      "OUT-OF-STATE FTP", "OUT OF STATE FTP",
      "DHS OVERPAYMENT",
      "DENIED RENEWAL OUT-OF STATE FTC",
      "DENIED RENEWAL OUT-OF-STATE FTP"].any (fun kw => pyIn kw action) then "FTP"
    else if pyIn "ALR" action then "road_safety"
    else if ["DWI", "DUI", "DRIVING WHILE INTOXICATED", "INTOXICATED", "INTOXICATION",
      "ALCOHOL", "BAC", "CHEMICAL TEST", "REFUSAL", "UNDER 21",
      "BOATING WHILE INTOXICATED", "BOATING REFUSAL", "BOATING FAILURE",
      "FLYING WHILE INTOXICATED", "AMUSEMENT RIDE INTOXICATION",
      "INTOXICATION ASSAULT", "INTOXICATION MANSLAUGHTER",
      "ADMINISTRATIVE PER SE", "IMPLIED CONSENT"].any (fun kw => pyIn kw action) then "road_safety"
    else if ["DRUG", "CONTROLLED SUBSTANCE", "DANGEROUS DRUG", "DRUG OFFENSE",
      "DWI EDUCATION PROGRAM",
      "DRUG EDUCATION PROGRAM"].any (fun kw => pyIn kw action) then "road_safety"
    else if ["SERIOUS TRAFFIC VIOLATIONS", "HABITUAL VIOLATOR", "HARDSHIP VIOLATOR",
      "REPEAT OFFENDER", "REPEATED", "SUBSEQUENT",
      "CRASH SERIOUS", "CRASH", "FATAL ACC", "INJ ACC", "PDO ACC",
      "FSRA", "LVSC", "VEHICLE MANSLAUGHTER", "CRIMINAL NEGLIGENT HOMICIDE",
      "MURDER WITH MOTOR VEHICLE"].any (fun kw => pyIn kw action) then "road_safety"
    else if ["FLEE POLICE", "EVADE ARREST",
      "EVADE DETENTION"].any (fun kw => pyIn kw action) then "road_safety"
    else if ["FAILURE TO STOP AND RENDER AID", "FAIL TO STOP", "FAIL TO SLOW",
      "FAILED TO OBEY", "FAIL TO STOP FOR SCHOOL BUS"].any (fun kw => pyIn kw action) then "road_safety"
    else if ["RACING", "PROHIBITION RACING"].any (fun kw => pyIn kw action) then "road_safety"
    else if ["VIOLATE RESTRICTION", "RESTRICTION", "PROHIBITION",
      "ORDER OF PROHIBITION"].any (fun kw => pyIn kw action) then "road_safety"
    else if pyIn "CANCELLED - CDL ONLY" action || pyIn "CANCELLED - CLP ONLY" action then "Other"
    else if ["CMV", "CDL", "CLP", "COMMERCIAL", "HAZMAT", "OUT OF SERVICE",
      "RAILROAD VIOLATION", "RR XING", "RR GATE",
      "INSUFFICIENT SPACE"].any (fun kw => pyIn kw action) then "road_safety"
    else if ["DWLI", "DWLD", "DRIVING WHILE LICENSE", "DWL", "DRIVING WHILE LICENSE INVALID",
      "DRIVING WHILE LICENSE SUSPENDED", "DRIVING WHILE LICENSE REVOKED",
      "DRIVING WHILE LICENSE CANCELED",
      "DRIVING WHILE LICENSE DISQUALIFIED",
      "DRIVING WHILE LICENSE WITHDRAWN"].any (fun kw => pyIn kw action) then "road_safety"
    else if pyIn "OUT OF STATE CONVICTION" action || pyIn "OUT-OF STATE CONVICTION" action then "road_safety"
    else if pyIn "OUT OF STATE CRASH" action || pyIn "OUT-OF STATE CRASH" action then "road_safety"
    else if ["MEDICAL", "INCAPABLE", "TEST REQUIRED",
      "MEDICAL ADVISORY"].any (fun kw => pyIn kw action) then "Other"
    else if ["CANCELLED - CDL ONLY", "CANCELLED - CLP ONLY",
      "CANCELLED", "DENY ISSUANCE", "DENIED RENEWAL"].any (fun kw => pyIn kw action) then "Other"
    else if pyIn "JUVENILE" action then "Other"
    else if ["MINOR LICENSE VIOLATION",
      "TOBACCO MINOR EDUCATION COURSE"].any (fun kw => pyIn kw action) then "Other"
    else if ["FALSIFICATION", "FICTITIOUS", "MISREPRESENTATION", "POSSESS DECEPTIVE",
      "POSSESS MORE THAN ONE", "UNLAWFUL DISPLAY",
      "LEND/PERMIT USE"].any (fun kw => pyIn kw action) then "Other"
    else if pyIn "CONTEMPT" action then "Other"
    else if pyIn "SEX OFFENDER" action then "Other"
    else if pyIn "SECTION 521.319" action then "Other"
    else if pyIn "NRVC" action then "Other"
    else "Other"

/-- Whether any keyword rule of `infer_category_for_texas_action` matches
the normalized text (the disjunction of all of its keyword checks, in
source order). -/
def texasAnyRuleMatches (action : String) : Bool :=
  pyIn "CHILD SUPPORT" action || pyIn "DELINQUENT CHILD SUPPORT" action ||
  ["FAILURE TO APPEAR", "FAIL TO APPEAR", "FTA",
    "OUT-OF-STATE FTA", "OUT OF STATE FTA"].any (fun kw => pyIn kw action) ||
  ["NO LIABILITY INSURANCE", "CANCELLED INSURANCE", "INSURANCE",
    "FINANCIAL RESPONSIBILITY", "SR SUSPENSION",
    "SURCHARGE DUE", "DEFAULT INSTALLMENT AGREEMENT", "DEFAULTED INSTALLMENT",
    "LIABILITY JUDGMENT", "OUT OF STATE JUDGMENT", "OUT-OF STATE JUDGMENT",
    "FAILURE TO COMPLY", "FAIL TO COMPLY", "FTC", "OUT-OF STATE FTC", "OUT OF STATE FTC",
    "OUT-OF-STATE FTP", "OUT OF STATE FTP",
    "DHS OVERPAYMENT",
    "DENIED RENEWAL OUT-OF STATE FTC",
    "DENIED RENEWAL OUT-OF-STATE FTP"].any (fun kw => pyIn kw action) ||
  pyIn "ALR" action ||
  ["DWI", "DUI", "DRIVING WHILE INTOXICATED", "INTOXICATED", "INTOXICATION",
    "ALCOHOL", "BAC", "CHEMICAL TEST", "REFUSAL", "UNDER 21",
    "BOATING WHILE INTOXICATED", "BOATING REFUSAL", "BOATING FAILURE",
    "FLYING WHILE INTOXICATED", "AMUSEMENT RIDE INTOXICATION",
    "INTOXICATION ASSAULT", "INTOXICATION MANSLAUGHTER",
    "ADMINISTRATIVE PER SE", "IMPLIED CONSENT"].any (fun kw => pyIn kw action) ||
  ["DRUG", "CONTROLLED SUBSTANCE", "DANGEROUS DRUG", "DRUG OFFENSE",
    "DWI EDUCATION PROGRAM",
    "DRUG EDUCATION PROGRAM"].any (fun kw => pyIn kw action) ||
  ["SERIOUS TRAFFIC VIOLATIONS", "HABITUAL VIOLATOR", "HARDSHIP VIOLATOR",
    "REPEAT OFFENDER", "REPEATED", "SUBSEQUENT",
    "CRASH SERIOUS", "CRASH", "FATAL ACC", "INJ ACC", "PDO ACC",
    "FSRA", "LVSC", "VEHICLE MANSLAUGHTER", "CRIMINAL NEGLIGENT HOMICIDE",
    "MURDER WITH MOTOR VEHICLE"].any (fun kw => pyIn kw action) ||
  ["FLEE POLICE", "EVADE ARREST",
    "EVADE DETENTION"].any (fun kw => pyIn kw action) ||
  ["FAILURE TO STOP AND RENDER AID", "FAIL TO STOP", "FAIL TO SLOW",
    "FAILED TO OBEY", "FAIL TO STOP FOR SCHOOL BUS"].any (fun kw => pyIn kw action) ||
  ["RACING", "PROHIBITION RACING"].any (fun kw => pyIn kw action) ||
  ["VIOLATE RESTRICTION", "RESTRICTION", "PROHIBITION",
    "ORDER OF PROHIBITION"].any (fun kw => pyIn kw action) ||
  pyIn "CANCELLED - CDL ONLY" action || pyIn "CANCELLED - CLP ONLY" action ||
  ["CMV", "CDL", "CLP", "COMMERCIAL", "HAZMAT", "OUT OF SERVICE",
    "RAILROAD VIOLATION", "RR XING", "RR GATE",
    "INSUFFICIENT SPACE"].any (fun kw => pyIn kw action) ||
  ["DWLI", "DWLD", "DRIVING WHILE LICENSE", "DWL", "DRIVING WHILE LICENSE INVALID",
    "DRIVING WHILE LICENSE SUSPENDED", "DRIVING WHILE LICENSE REVOKED",
    "DRIVING WHILE LICENSE CANCELED",
    "DRIVING WHILE LICENSE DISQUALIFIED",
    "DRIVING WHILE LICENSE WITHDRAWN"].any (fun kw => pyIn kw action) ||
  pyIn "OUT OF STATE CONVICTION" action || pyIn "OUT-OF STATE CONVICTION" action ||
  pyIn "OUT OF STATE CRASH" action || pyIn "OUT-OF STATE CRASH" action ||
  ["MEDICAL", "INCAPABLE", "TEST REQUIRED",
    "MEDICAL ADVISORY"].any (fun kw => pyIn kw action) ||
  ["CANCELLED - CDL ONLY", "CANCELLED - CLP ONLY",
    "CANCELLED", "DENY ISSUANCE", "DENIED RENEWAL"].any (fun kw => pyIn kw action) ||
  pyIn "JUVENILE" action ||
  ["MINOR LICENSE VIOLATION",
    "TOBACCO MINOR EDUCATION COURSE"].any (fun kw => pyIn kw action) ||
  ["FALSIFICATION", "FICTITIOUS", "MISREPRESENTATION", "POSSESS DECEPTIVE",
    "POSSESS MORE THAN ONE", "UNLAWFUL DISPLAY",
    "LEND/PERMIT USE"].any (fun kw => pyIn kw action) ||
  pyIn "CONTEMPT" action ||
  pyIn "SEX OFFENDER" action ||
  pyIn "SECTION 521.319" action ||
  pyIn "NRVC" action

/- ### Vermont (src/Scripts/Vermont.py) -/

/-- `int(...)` on a character slice, as used by `parse_vermont_date`; the
slices arising there are within an already stripped string, and a slice
with a non-digit character makes Python's `int` raise `ValueError`, which
the surrounding `try` turns into `None`. -/
def sliceNat (l : List Char) (start stop : Nat) : Option Nat :=
  let seg := (l.drop start).take (stop - start)
  if seg ≠ [] && seg.all isDigitChar then some (digitsVal seg) else none

/-- Number of days of a month, Gregorian calendar, as enforced by the
`pd.Timestamp(year, month, day)` constructor (an invalid combination
raises `ValueError`, which `parse_vermont_date` catches into `None`). -/
def daysInMonth (year month : Nat) : Nat :=
  if month = 2 then
    if year % 4 = 0 && (year % 100 ≠ 0 || year % 400 = 0) then 29 else 28
  else if month = 4 || month = 6 || month = 9 || month = 11 then 30
  else 31

/-- `parse_vermont_date` of src/Scripts/Vermont.py, returning the
`(year, month, day)` of the constructed `pd.Timestamp` (or `none` where
the Python function returns `None`).  `none` input models a NaN
`date_str`. -/
def parse_vermont_date (date_str : Option String) : Option (Nat × Nat × Nat) :=
  match date_str with
  | none => none
  | some raw =>
    if raw = "" || pyStrip raw = "" then none
    else
      let s := pyStrip raw
      if s = "000000" || s = "0" || s.length < 6 then none
      else
        let l := s.toList
        if s.length = 6 then
          match sliceNat l 0 2, sliceNat l 2 4, sliceNat l 4 6 with
          | some y2, some month, some day =>
            let year := if y2 > 50 then y2 + 1900 else y2 + 2000
            if month < 1 || month > 12 || day < 1 || day > 31 then none
            else if day ≤ daysInMonth year month then some (year, month, day)
            else none
          | _, _, _ => none
        else if s.length = 8 then
          match sliceNat l 0 4, sliceNat l 2 4, sliceNat l 4 8 with
          | some year, some month, some day =>
            if month < 1 || month > 12 || day < 1 || day > 31 then none
            else if day ≤ daysInMonth year month then some (year, month, day)
            else none
          | _, _, _ => none
        else none

/- ### Illinois (src/Scripts/Illinois.py) -/

/-- `re.match(r"(\d{1,2})/(\d{4})", s)`: a one- or two-digit month, a
slash and a four-digit year at the start of the string; the `\d{1,2}`
group is greedy, backtracking from two digits to one. -/
def matchMonthSlashYear (l : List Char) : Option (Nat × Nat) :=
  match l with
  | a :: b :: s :: c :: d :: e :: f :: _ =>
    if isDigitChar a && isDigitChar b && s == '/' && isDigitChar c &&
        isDigitChar d && isDigitChar e && isDigitChar f then
      some (digitsVal [a, b], digitsVal [c, d, e, f])
    else match l with
      | a :: s :: c :: d :: e :: f :: _ =>
        if isDigitChar a && s == '/' && isDigitChar c && isDigitChar d &&
            isDigitChar e && isDigitChar f then
          some (digitsVal [a], digitsVal [c, d, e, f])
        else none
      | _ => none
  | a :: s :: c :: d :: e :: f :: _ =>
    if isDigitChar a && s == '/' && isDigitChar c && isDigitChar d &&
        isDigitChar e && isDigitChar f then
      some (digitsVal [a], digitsVal [c, d, e, f])
    else none
  | _ => none

/-- `re.match(r"(\d{4})-(\d{1,2})", s)`: a four-digit year, a hyphen and a
one- or two-digit month at the start of the string; the `\d{1,2}` group is
greedy. -/
def matchYearDashMonth (l : List Char) : Option (Nat × Nat) :=
  match l with
  | a :: b :: c :: d :: s :: e :: rest =>
    if isDigitChar a && isDigitChar b && isDigitChar c && isDigitChar d &&
        s == '-' && isDigitChar e then
      match rest with
      | f :: _ =>
        if isDigitChar f then some (digitsVal [a, b, c, d], digitsVal [e, f])
        else some (digitsVal [a, b, c, d], digitsVal [e])
      | [] => some (digitsVal [a, b, c, d], digitsVal [e])
    else none
  | _ => none

/-- `re.match(r"(\d{4})", s)`: a four-digit number at the start of the
string. -/
def matchYearOnly (l : List Char) : Option Nat :=
  match l with
  | a :: b :: c :: d :: _ =>
    if isDigitChar a && isDigitChar b && isDigitChar c && isDigitChar d then
      some (digitsVal [a, b, c, d])
    else none
  | _ => none

/-- `parse_month_year` of src/Scripts/Illinois.py; `none` input models a
NaN `month_year_str`. -/
def parse_month_year (month_year_str : Option String) : Option Nat × Option Nat :=
  match month_year_str with
  | none => (none, none)
  | some raw =>
    let l := (pyStrip raw).toList
    match matchMonthSlashYear l with
    | some (month, year) =>
      if 1 ≤ month && month ≤ 12 then (some year, some month)
      else
        match matchYearDashMonth l with
        | some (year, month) =>
          if 1 ≤ month && month ≤ 12 then (some year, some month)
          else
            match matchYearOnly l with
            | some year => (some year, none)
            | none => (none, none)
        | none =>
          match matchYearOnly l with
          | some year => (some year, none)
          | none => (none, none)
    | none =>
      match matchYearDashMonth l with
      | some (year, month) =>
        if 1 ≤ month && month ≤ 12 then (some year, some month)
        else
          match matchYearOnly l with
          | some year => (some year, none)
          | none => (none, none)
      | none =>
        match matchYearOnly l with
        | some year => (some year, none)
        | none => (none, none)

/-- Python truthiness of an optional number (`None` and `0` are falsy). -/
def optTruthy (o : Option Nat) : Bool :=
  match o with
  | none => false
  | some n => n ≠ 0

/-- The `time` value built for one row by the `time_data` loop of
`process_monthly_data` of src/Scripts/Illinois.py:
`f"{year:04d}-{month:02d}"` when both parse, the placeholder
`f"{year:04d}-01"` when only a year parses, `None` otherwise. -/
def illinoisTime (month_year_str : Option String) : Option String :=
  let ym := parse_month_year month_year_str
  if optTruthy ym.1 && optTruthy ym.2 then
    some (pyFmt 4 (ym.1.getD 0) ++ "-" ++ pyFmt 2 (ym.2.getD 0))
  else if optTruthy ym.1 then
    some (pyFmt 4 (ym.1.getD 0) ++ "-01")
  else none

/- ### Nevada (src/Scripts/Nevada.py) -/

/-- One row of Nevada's output table. -/
structure NevadaRow where
  time : String
  ftpCt : Nat
  ftaCt : Nat
  roadSafetyCt : Nat
  childSupportCt : Nat
  otherCt : Nat
  totalCt : Nat
deriving DecidableEq, Repr

/-- The string `as_of_date` of `parse_nevada_report`: the `\d{4}` and
`\d{2}` captures of `re.search(r"AS-OF DATE\s*:\s*(\d{4})-(\d{2})-(\d{2})",
content)` joined as `f"{year}-{month}"`, or the default `"2023-06"` when
the pattern does not occur in the report. -/
def nevadaAsOfDate (capture : Option (String × String)) : String :=
  match capture with
  | some (year, month) => year ++ "-" ++ month
  | none => "2023-06"

/-- The table built by `parse_nevada_report` of src/Scripts/Nevada.py from
the as-of capture and the accumulated suspended/revoked totals: one data
row carrying every count in the `Other` column, plus a `"total"` row with
the same values. -/
def parse_nevada_report (capture : Option (String × String))
    (suspended revoked : Nat) : List NevadaRow :=
  [⟨nevadaAsOfDate capture, 0, 0, 0, 0, suspended + revoked, suspended + revoked⟩,
   ⟨"total", 0, 0, 0, 0, suspended + revoked, suspended + revoked⟩]

/- ### Monthly time buckets -/

/-- Whether a string matches `^\d{4}-(0[1-9]|1[0-2])$`, the shape the spec
requires of every non-sentinel `time_bucket`. -/
def matchesMonthBucket (s : String) : Bool :=
  match s.toList with
  | [a, b, c, d, dash, m1, m2] =>
    isDigitChar a && isDigitChar b && isDigitChar c && isDigitChar d &&
      dash == '-' &&
      ((m1 == '0' && '1' ≤ m2 && m2 ≤ '9') || (m1 == '1' && '0' ≤ m2 && m2 ≤ '2'))
  | _ => false

/- ### Aggregator (monthly category table; src/Scripts/Illinois.py lines
296-327, the same pivot/total/cast scheme as the other state scripts) -/

/-- The fixed category column list of the Illinois table. -/
def illinoisCategories : List String := ["FTP", "FTA", "road_safety", "Other"]

/-- A normalized record: time bucket, category and weight (the weight is
rational because yearly counts are distributed as `count / 12`). -/
structure NRec where
  time : String
  cat : String
  wt : ℚ
deriving DecidableEq

/-- Value of one pivot cell: the summed weight of the records with the
given time bucket and category (`groupby(['time','category']).sum()`
followed by `pivot(...).fillna(0)`). -/
def cellSum (recs : List NRec) (t c : String) : ℚ :=
  ((recs.filter (fun r => r.time = t && r.cat = c)).map (fun r => r.wt)).sum

/-- The distinct time buckets of the records, in first-appearance order
(the pivot index; its sorting does not affect any sum below). -/
def timesOf (recs : List NRec) : List String :=
  (recs.map (fun r => r.time)).dedup

/-- A row of the wide monthly table: its time key, its category cells and
its `total` cell. -/
structure MRow where
  time : String
  cells : String → ℚ
  total : ℚ

/-- The pivot row of one time bucket, with
`total = pivot_df[categories].sum(axis=1)`. -/
def pivotRow (recs : List NRec) (t : String) : MRow :=
  ⟨t, fun c => cellSum recs t c, (illinoisCategories.map (fun c => cellSum recs t c)).sum⟩

/-- The appended grand-total row:
`pivot_df[categories + ['total']].sum()`, indexed `"total"`. -/
def grandRow (recs : List NRec) : MRow :=
  ⟨"total",
   fun c => ((timesOf recs).map (fun t => cellSum recs t c)).sum,
   ((timesOf recs).map (fun t => (pivotRow recs t).total)).sum⟩

/-- The monthly category table before the integer cast: one row per time
bucket plus the grand-total row. -/
def monthlyTable (recs : List NRec) : List MRow :=
  (timesOf recs).map (pivotRow recs) ++ [grandRow recs]

/-- `astype(int)` on one cell: C float-to-integer conversion truncates
toward zero. -/
def pyTrunc (q : ℚ) : ℤ :=
  if 0 ≤ q then ⌊q⌋ else ⌈q⌉

/-- A row of the output table after
`output_df[col] = pd.to_numeric(...).fillna(0).astype(int)`. -/
structure ZRow where
  time : String
  cells : String → ℤ
  total : ℤ

/-- The integer cast of one row. -/
def castRow (r : MRow) : ZRow :=
  ⟨r.time, fun c => pyTrunc (r.cells c), pyTrunc r.total⟩

/-- The monthly category table as written to output, after the integer
cast of the category and total columns. -/
def castTable (recs : List NRec) : List ZRow :=
  (monthlyTable recs).map castRow

/- ### Cross-state combiner (src/ProcessAll.py) -/

/-- A per-state table as `map_categories_to_output` sees it: its column
names and its rows, each row a `time` key and its cells (a `none` cell is
NaN). -/
structure StateTable where
  cols : List String
  rows : List (String × (String → Option ℤ))

/-- The summary categories returned by `map_categories_to_output`. -/
structure SummaryCats where
  driving : ℤ
  fees : ℤ
  ftaCt : ℤ
  childSupport : ℤ
  roadSafety : ℤ
deriving DecidableEq, Repr

/-- Pandas `df[col].sum()` over the date rows (NaN cells are skipped,
i.e. count as 0). -/
def colSum (rows : List (String × (String → Option ℤ))) (c : String) : ℤ :=
  (rows.map (fun r => (r.2 c).getD 0)).sum

/-- `map_categories_to_output` of src/ProcessAll.py.  Returns `none` when
the table has neither a `"total"` row nor any date row. -/
def map_categories_to_output (df : StateTable) : Option SummaryCats :=
  match df.rows.find? (fun r => r.1 = "total") with
  | none =>
    let dateRows := df.rows.filter (fun r => r.1 ≠ "total")
    if dateRows.isEmpty then none
    else
      let get := fun c => if c ∈ df.cols then colSum dateRows c else 0
      let csCol : Option String :=
        if "child_support" ∈ df.cols then some "child_support"
        else if "Child_Support" ∈ df.cols then some "Child_Support"
        else none
      some ⟨get "Other",
            get "FTP",
            get "FTA",
            (match csCol with
             | some c => colSum dateRows c
             | none => 0),
            get "road_safety"⟩
  | some row =>
    let get := fun c => if c ∈ df.cols then (row.2 c).getD 0 else 0
    let csCol : Option String :=
      if "child_support" ∈ df.cols && (row.2 "child_support").isSome then
        some "child_support"
      else if "Child_Support" ∈ df.cols && (row.2 "Child_Support").isSome then
        some "Child_Support"
      else none
    some ⟨get "Other",
          get "FTP",
          get "FTA",
          (match csCol with
           | some c => (row.2 c).getD 0
           | none => 0),
          get "road_safety"⟩

/- ### Auxiliary definitions used by the statements below -/

/-- The fixed category enumeration of the spec. -/
def categoryEnumeration : List String := ["FTP", "FTA", "road_safety", "Child_Support", "Other"]

/-- Whether a character list starts with a character of the
`_extract_code` class `[A-Z0-9]`. -/
def startsWithCodeChar : List Char → Bool
  | [] => false
  | c :: _ => isCodeChar c

/-- Two records of one month with fractional weights (each one half), as
produced by the even distribution of an annual total of 6 over 12 months. -/
def fracRecords : List NRec :=
  [⟨"2005-01", "FTA", 1/2⟩, ⟨"2005-01", "FTP", 1/2⟩]

/-- Two records of one month with integer weights. -/
def intRecords : List NRec :=
  [⟨"2022-01", "FTA", 4⟩, ⟨"2022-01", "FTP", 2⟩]

/-- Cells of a sample per-state table row (no `Child_Support` column). -/
def sampleCells : String → Option ℤ :=
  fun c =>
    if c = "FTP" then some 3
    else if c = "FTA" then some 4
    else if c = "road_safety" then some 0
    else if c = "Other" then some 1
    else none

/-- A sample per-state table with a `"total"` row and no `Child_Support`
column. -/
def sampleTable : StateTable :=
  ⟨["time", "FTP", "FTA", "road_safety", "Other", "total"],
   [("2020-01", sampleCells), ("total", sampleCells)]⟩

/- ### Helper lemmas -/

theorem ite_mem_enum {c : Prop} [Decidable c] {L : List String} {a b : String}
    (ha : a ∈ L) (hb : b ∈ L) : (if c then a else b) ∈ L := by
  split <;> assumption

/- ### C1 -/

/-- C1: when the column label carries an explicit code present in the
code-to-category override table (the label's leading code extracts and is
found in `EXPLICIT_CODE_CATEGORY`), `infer_category_for_column` returns
the table's category, regardless of any keywords in the rest of the
label's text. -/
theorem C1_explicit_code_override (col code cat : String)
    (h1 : extract_code col = some code)
    (h2 : lookupExplicitCode code = some cat) :
    infer_category_for_column col = cat := by
  unfold infer_category_for_column
  rw [h1]
  simp [h2]

/-- Witness for C1: the Colorado code `RLSN` is mapped to `road_safety`
and wins although the paired description text contains FTP keywords (the
keyword classifier alone would say `FTP`). -/
theorem C1_explicit_code_override_witness :
    extract_code "RLSN - Failed to pay / no liability insurance" = some "RLSN"
  ∧ lookupExplicitCode "RLSN" = some "road_safety"
  ∧ infer_category_from_text "RLSN - Failed to pay / no liability insurance" = "FTP"
  ∧ infer_category_for_column "RLSN - Failed to pay / no liability insurance" = "road_safety" :=
  ⟨by decide, by decide, by decide,
   C1_explicit_code_override _ "RLSN" "road_safety" (by decide) (by decide)⟩

/- ### C2 -/

/-- C2 (amended): a label containing a Child_Support keyword classifies as
`Child_Support` in the jurisdictions that segregate child support
(Maryland and Washington check the `CHILD SUPPORT` group first), and as
`FTP` in Colorado's non-segregating text classifier provided the label
contains no FTA keyword — Colorado checks its FTA group before its FTP
group, so an FTA keyword preempts. -/
theorem C2_child_support_precedence :
    (∀ s d : Option String, pyIn "CHILD SUPPORT" (marylandText s d) = true →
      infer_category_for_maryland_code s d = "Child_Support")
  ∧ (∀ r : String, pyIn "CHILD SUPPORT" (pyUpper (pyStrip r)) = true →
      infer_category_for_washington_reason (some r) = "Child_Support")
  ∧ (∀ t : String, pyIn "child support" (pyLower t) = true →
      (∀ kw ∈ FTA_KEYWORDS, pyIn kw (pyLower t) = false) →
      infer_category_from_text t = "FTP") := by
  refine ⟨?_, ?_, ?_⟩
  · intro s d h
    unfold infer_category_for_maryland_code
    simp [h]
  · intro r h
    rw [infer_category_for_washington_reason]
    simp [h]
  · intro t hcs hfta
    unfold infer_category_from_text
    have h1 : FTA_KEYWORDS.any (fun kw => pyIn kw (pyLower t)) = false := by
      simp only [List.any_eq_false]
      intro kw hkw
      simp [hfta kw hkw]
    have h2 : FTP_KEYWORDS.any (fun kw => pyIn kw (pyLower t)) = true := by
      simp only [List.any_eq_true]
      exact ⟨"child support", by simp [FTP_KEYWORDS], hcs⟩
    simp [h1, h2]

/-- Counterexample for C2: the label "child support default judgment"
contains the Child_Support keyword "child support" — which is itself an
FTP keyword in Colorado — yet Colorado's classifier returns `FTA`, not
`FTP`, because "default judgment" is an FTA keyword and the FTA group is
checked first. -/
theorem C2_counterexample :
    pyIn "child support" (pyLower "child support default judgment") = true
  ∧ "child support" ∈ FTP_KEYWORDS
  ∧ infer_category_from_text "child support default judgment" = "FTA" := by
  refine ⟨by decide, by decide, by decide⟩

/-- Witness for C2: "failure to pay child support" classifies as
`Child_Support` in Maryland and Washington and as `FTP` in Colorado. -/
theorem C2_child_support_precedence_witness :
    infer_category_for_maryland_code (some "failure to pay child support") none = "Child_Support"
  ∧ infer_category_for_washington_reason (some "failure to pay child support") = "Child_Support"
  ∧ infer_category_from_text "failure to pay child support" = "FTP" :=
  ⟨C2_child_support_precedence.1 _ _ (by decide),
   C2_child_support_precedence.2.1 _ (by decide),
   C2_child_support_precedence.2.2 _ (by decide) (by decide)⟩

/- ### C4 -/

/-- C4: the Washington and Texas classifiers are total functions (the
embedding needs no error case): for every input, including missing/NaN
(`none`) and the empty string, the result is one member of the fixed
category enumeration; a NaN input gives `Other`, and when no keyword rule
matches the normalized text the result is `Other`. -/
theorem C4_classifier_total :
    (∀ o : Option String, infer_category_for_washington_reason o ∈ categoryEnumeration)
  ∧ (∀ o : Option String, infer_category_for_texas_action o ∈ categoryEnumeration)
  ∧ infer_category_for_washington_reason none = "Other"
  ∧ infer_category_for_texas_action none = "Other"
  ∧ (∀ s : String, washingtonAnyRuleMatches (pyUpper (pyStrip s)) = false →
      infer_category_for_washington_reason (some s) = "Other")
  ∧ (∀ s : String, texasAnyRuleMatches (pyUpper (pyStrip s)) = false →
      infer_category_for_texas_action (some s) = "Other") := by
  refine ⟨?_, ?_, by decide, by decide, ?_, ?_⟩
  · intro o
    cases o with
    | none => decide
    | some r =>
      rw [infer_category_for_washington_reason]
      repeat' apply ite_mem_enum
      all_goals decide
  · intro o
    cases o with
    | none => decide
    | some a =>
      rw [infer_category_for_texas_action]
      repeat' apply ite_mem_enum
      all_goals decide
  · intro s h
    simp only [washingtonAnyRuleMatches, Bool.or_eq_false_iff] at h
    obtain ⟨h, h8⟩ := h
    obtain ⟨h, h7⟩ := h
    obtain ⟨h, h6⟩ := h
    obtain ⟨h, h5⟩ := h
    obtain ⟨h, h4⟩ := h
    obtain ⟨h, h3⟩ := h
    obtain ⟨h, h2⟩ := h
    have h1 := h
    rw [infer_category_for_washington_reason]
    simp [h1, h2, h3, h4, h5, h6, h7, h8]
  · intro s h
    simp only [texasAnyRuleMatches, Bool.or_eq_false_iff] at h
    obtain ⟨h, h29⟩ := h
    obtain ⟨h, h28⟩ := h
    obtain ⟨h, h27⟩ := h
    obtain ⟨h, h26⟩ := h
    obtain ⟨h, h25⟩ := h
    obtain ⟨h, h24⟩ := h
    obtain ⟨h, h23⟩ := h
    obtain ⟨h, h22⟩ := h
    obtain ⟨h, h21⟩ := h
    obtain ⟨h, h20⟩ := h
    obtain ⟨h, h19⟩ := h
    obtain ⟨h, h18⟩ := h
    obtain ⟨h, h17⟩ := h
    obtain ⟨h, h16⟩ := h
    obtain ⟨h, h15⟩ := h
    obtain ⟨h, h14⟩ := h
    obtain ⟨h, h13⟩ := h
    obtain ⟨h, h12⟩ := h
    obtain ⟨h, h11⟩ := h
    obtain ⟨h, h10⟩ := h
    obtain ⟨h, h9⟩ := h
    obtain ⟨h, h8⟩ := h
    obtain ⟨h, h7⟩ := h
    obtain ⟨h, h6⟩ := h
    obtain ⟨h, h5⟩ := h
    obtain ⟨h, h4⟩ := h
    obtain ⟨h, h3⟩ := h
    obtain ⟨h, h2⟩ := h
    have h1 := h
    rw [infer_category_for_texas_action]
    simp [h1, h2, h3, h4, h5, h6, h7, h8, h9, h10, h11, h12, h13, h14, h15, h16, h17, h18, h19, h20, h21, h22, h23, h24, h25, h26, h27, h28, h29]

/-- Witness for C4: the label "zzz" matches no rule of either classifier
and lands in `Other`, and the empty string classifies without error. -/
theorem C4_classifier_total_witness :
    washingtonAnyRuleMatches (pyUpper (pyStrip "zzz")) = false
  ∧ infer_category_for_washington_reason (some "zzz") = "Other"
  ∧ texasAnyRuleMatches (pyUpper (pyStrip "zzz")) = false
  ∧ infer_category_for_texas_action (some "zzz") = "Other"
  ∧ infer_category_for_washington_reason (some "") = "Other" :=
  ⟨by decide, C4_classifier_total.2.2.2.2.1 "zzz" (by decide),
   by decide, C4_classifier_total.2.2.2.2.2 "zzz" (by decide),
   C4_classifier_total.2.2.2.2.1 "" (by decide)⟩

/- ### C5 -/

/-- C5 (amended): exact-code extraction performs no case normalization:
the label is only trimmed and the code regex matches only uppercase
alphanumerics, so a label whose trimmed form does not start with an
uppercase alphanumeric character yields no code and is classified from
its keyword text alone.  Different-case spellings of a table code can
therefore classify differently. -/
theorem C5_code_case_sensitivity (s : String)
    (h : startsWithCodeChar ((pyStrip s).toList) = false) :
    extract_code s = none ∧ infer_category_for_column s = infer_category_from_text s := by
  have hfail : ∀ k, 2 ≤ k → codeMatchAt ((pyStrip s).toList) k = false := by
    intro k hk
    cases hl : (pyStrip s).toList with
    | nil =>
      simp [codeMatchAt]
      omega
    | cons c rest =>
      rw [hl] at h
      simp only [startsWithCodeChar] at h
      cases k with
      | zero => omega
      | succ k2 => simp [codeMatchAt, h]
  have hnone : extract_code s = none := by
    unfold extract_code
    have h5 := hfail 5 (by omega)
    have h4 := hfail 4 (by omega)
    have h3 := hfail 3 (by omega)
    have h2 := hfail 2 (by omega)
    simp only [String.toList] at h5 h4 h3 h2
    simp [h5, h4, h3, h2]
  refine ⟨hnone, ?_⟩
  unfold infer_category_for_column
  rw [hnone]

/-- Counterexample for C5: the uppercase spelling `RLSN` classifies as
`road_safety` through the code table, but the lowercase and mixed-case
spellings fail code extraction and fall through to keyword matching,
classifying as `Other` — classification is not case-insensitive in the
code. -/
theorem C5_counterexample :
    infer_category_for_column "RLSN" = "road_safety"
  ∧ infer_category_for_column "rlsn" = "Other"
  ∧ infer_category_for_column "Rlsn" = "Other" := by
  refine ⟨by decide, by decide, by decide⟩

/-- Witness for C5: "rlsn" starts with a lowercase letter, so no code is
extracted and the keyword classifier decides. -/
theorem C5_code_case_sensitivity_witness :
    startsWithCodeChar ((pyStrip "rlsn").toList) = false
  ∧ extract_code "rlsn" = none
  ∧ infer_category_for_column "rlsn" = infer_category_from_text "rlsn" :=
  ⟨by decide, (C5_code_case_sensitivity "rlsn" (by decide)).1,
   (C5_code_case_sensitivity "rlsn" (by decide)).2⟩

/- ### Decimal-format lemmas -/

theorem digit_char_isDigit (d : Nat) (h : d < 10) :
    isDigitChar (Char.ofNat (48 + d)) = true := by
  interval_cases d <;> decide

theorem digit_char_val (d : Nat) (h : d < 10) :
    (Char.ofNat (48 + d)).toNat - 48 = d := by
  interval_cases d <;> decide

theorem natDigitsAux_ne_nil (fuel n : Nat) (h : n < fuel) :
    natDigitsAux fuel n ≠ [] := by
  cases fuel with
  | zero => omega
  | succ f =>
    unfold natDigitsAux
    split <;> simp

theorem natDigitsAux_all_digit (fuel : Nat) :
    ∀ n, n < fuel → ∀ c ∈ natDigitsAux fuel n, isDigitChar c = true := by
  induction fuel with
  | zero => intro n h; omega
  | succ f ih =>
    intro n h c hc
    unfold natDigitsAux at hc
    by_cases h10 : n < 10
    · simp [h10] at hc
      subst hc
      exact digit_char_isDigit n h10
    · simp [h10] at hc
      rcases hc with hc | hc
      · exact ih (n / 10) (by omega) c hc
      · subst hc
        exact digit_char_isDigit (n % 10) (Nat.mod_lt _ (by omega))

theorem natDigitsAux_length_le (fuel : Nat) :
    ∀ n k, n < fuel → 1 ≤ k → n < 10 ^ k → (natDigitsAux fuel n).length ≤ k := by
  induction fuel with
  | zero => intro n k h; omega
  | succ f ih =>
    intro n k h hk hn
    unfold natDigitsAux
    by_cases h10 : n < 10
    · simp [h10]; omega
    · simp [h10]
      have hk2 : 2 ≤ k := by
        by_contra hlt
        have : k = 1 := by omega
        subst this
        simp at hn
        omega
      have : n / 10 < 10 ^ (k - 1) := by
        have h1 : 10 ^ k = 10 ^ (k - 1) * 10 := by
          conv_lhs => rw [show k = (k - 1) + 1 by omega]
          rw [pow_succ]
        apply Nat.div_lt_of_lt_mul
        rw [mul_comm]
        omega
      have := ih (n / 10) (k - 1) (by omega) (by omega) this
      omega

theorem foldl_digits_acc (l : List Char) :
    ∀ acc : Nat, l.foldl (fun acc c => 10 * acc + (c.toNat - 48)) acc =
      acc * 10 ^ l.length + digitsVal l := by
  induction l with
  | nil => intro acc; simp [digitsVal]
  | cons c rest ih =>
    intro acc
    show List.foldl _ (10 * acc + (c.toNat - 48)) rest = _
    rw [ih (10 * acc + (c.toNat - 48))]
    have hd : digitsVal (c :: rest) = (c.toNat - 48) * 10 ^ rest.length + digitsVal rest := by
      show List.foldl _ (10 * 0 + (c.toNat - 48)) rest = _
      rw [ih (10 * 0 + (c.toNat - 48))]
      ring_nf
    rw [hd]
    simp [List.length_cons, pow_succ]
    ring

theorem digitsVal_append (l1 l2 : List Char) :
    digitsVal (l1 ++ l2) = digitsVal l1 * 10 ^ l2.length + digitsVal l2 := by
  unfold digitsVal
  rw [List.foldl_append]
  rw [foldl_digits_acc l2]
  congr 1

theorem digitsVal_natDigitsAux (fuel : Nat) :
    ∀ n, n < fuel → digitsVal (natDigitsAux fuel n) = n := by
  induction fuel with
  | zero => intro n h; omega
  | succ f ih =>
    intro n h
    unfold natDigitsAux
    by_cases h10 : n < 10
    · simp [h10, digitsVal, digit_char_val n h10]
    · simp only [h10, if_false]
      rw [digitsVal_append]
      rw [ih (n / 10) (by omega)]
      have : digitsVal [Char.ofNat (48 + n % 10)] = n % 10 := by
        simp [digitsVal, digit_char_val (n % 10) (Nat.mod_lt _ (by omega))]
      rw [this]
      simp
      omega

theorem digitsVal_replicate_zero (k : Nat) (l : List Char) :
    digitsVal (List.replicate k '0' ++ l) = digitsVal l := by
  rw [digitsVal_append]
  have : digitsVal (List.replicate k '0') = 0 := by
    induction k with
    | zero => decide
    | succ k2 ih =>
      rw [List.replicate_succ]
      show List.foldl _ (10 * 0 + ('0'.toNat - 48)) _ = 0
      rw [foldl_digits_acc]
      simp at ih ⊢
      exact ih
  rw [this]
  simp

theorem digitsVal_pyFmt (w n : Nat) : digitsVal (pyFmt w n).toList = n := by
  show digitsVal (List.replicate _ '0' ++ natDigits n) = n
  rw [digitsVal_replicate_zero]
  exact digitsVal_natDigitsAux (n + 1) n (by omega)

theorem pyFmt_inj (w : Nat) (a b : Nat) (h : pyFmt w a = pyFmt w b) : a = b := by
  have h1 := digitsVal_pyFmt w a
  have h2 := digitsVal_pyFmt w b
  rw [← h1, ← h2, h]

theorem pyFmt_length (w n : Nat) (hw : 1 ≤ w) (hn : n < 10 ^ w) :
    (pyFmt w n).toList.length = w := by
  show (List.replicate _ '0' ++ natDigits n).length = w
  have h1 : (natDigits n).length ≤ w := natDigitsAux_length_le (n + 1) n w (by omega) hw hn
  simp [List.length_append, List.length_replicate]
  omega

theorem pyFmt_all_digit (w n : Nat) (c : Char) (hc : c ∈ (pyFmt w n).toList) :
    isDigitChar c = true := by
  have : c ∈ List.replicate (w - (natDigits n).length) '0' ++ natDigits n := hc
  rw [List.mem_append] at this
  rcases this with h | h
  · rw [List.eq_of_mem_replicate h]; decide
  · exact natDigitsAux_all_digit (n + 1) n (by omega) c h

/-- Decimal digit characters are not stripped as whitespace. -/
theorem digit_not_space (c : Char) (h : isDigitChar c = true) : isSpaceChar c = false := by
  by_contra hs
  rw [Bool.not_eq_false] at hs
  simp only [isSpaceChar, Bool.or_eq_true, decide_eq_true_eq] at hs
  rcases hs with ((((rfl | rfl) | rfl) | rfl) | rfl) | rfl <;> exact absurd h (by decide)

/-- Stripping an all-digit string changes nothing. -/
theorem pyStrip_digits (l : List Char) (h : ∀ c ∈ l, isDigitChar c = true) :
    pyStrip ⟨l⟩ = ⟨l⟩ := by
  unfold pyStrip
  have h1 : l.dropWhile isSpaceChar = l := by
    cases l with
    | nil => rfl
    | cons c rest =>
      rw [List.dropWhile_cons]
      simp [digit_not_space c (h c (by simp))]
  have h2 : l.reverse.dropWhile isSpaceChar = l.reverse := by
    cases hrl : l.reverse with
    | nil => rfl
    | cons c rest =>
      rw [List.dropWhile_cons]
      have hc : c ∈ l := by
        rw [← List.mem_reverse, hrl]
        simp
      simp [digit_not_space c (h c hc)]
  show String.mk _ = _
  rw [show (String.mk l).toList = l from rfl, h1, h2, List.reverse_reverse]

/-- Evaluation of `sliceNat` on an all-digit segment. -/
theorem sliceNat_of_digits (l : List Char) (a b : Nat) (seg : List Char)
    (hseg : (l.drop a).take (b - a) = seg) (hne : seg ≠ [])
    (hdig : ∀ c ∈ seg, isDigitChar c = true) :
    sliceNat l a b = some (digitsVal seg) := by
  unfold sliceNat
  rw [hseg]
  have hall : seg.all isDigitChar = true := by
    rw [List.all_eq_true]
    intro c hc
    simp [hdig c hc]
  simp [hne, hall]


/-- C6: the code is wrong here (the claim matches the documented intent).
For every valid calendar date of Vermont's plausible range written as an
8-digit `YYYYMMDD` string, `parse_vermont_date` returns `None`, so the
record is dropped instead of being bucketed: the 8-digit branch slices the
month from positions 2-4 (inside the year) and the day from positions 4-8
(the 4-digit `MMDD` block, whose value is at least 101 and thus always
fails the `day ≤ 31` test). -/
theorem C6_vermont_yyyymmdd_dropped (y m d : Nat)
    (hy1 : 1980 ≤ y) (hy2 : y ≤ 2024) (hm1 : 1 ≤ m) (hm2 : m ≤ 12)
    (hd1 : 1 ≤ d) (hd2 : d ≤ daysInMonth y m) :
    parse_vermont_date (some (pyFmt 4 y ++ pyFmt 2 m ++ pyFmt 2 d)) = none := by
  have hp : (10:ℕ) ^ 4 = 10000 := by norm_num
  have hp2 : (10:ℕ) ^ 2 = 100 := by norm_num
  have h4 : (pyFmt 4 y).toList.length = 4 := pyFmt_length 4 y (by omega) (by omega)
  have hlm : (pyFmt 2 m).toList.length = 2 := pyFmt_length 2 m (by omega) (by omega)
  have hld : (pyFmt 2 d).toList.length = 2 := by
    refine pyFmt_length 2 d (by omega) ?_
    have : daysInMonth y m ≤ 31 := by
      unfold daysInMonth
      split_ifs <;> omega
    omega
  set l4 := (pyFmt 4 y).toList with hl4def
  set lm := (pyFmt 2 m).toList with hlmdef
  set ld := (pyFmt 2 d).toList with hlddef
  set L := l4 ++ (lm ++ ld) with hLdef
  have hdigL : ∀ c ∈ L, isDigitChar c = true := by
    intro c hc
    rw [hLdef] at hc
    simp only [List.mem_append] at hc
    rcases hc with hc | hc | hc
    · exact pyFmt_all_digit 4 y c hc
    · exact pyFmt_all_digit 2 m c hc
    · exact pyFmt_all_digit 2 d c hc
  have hlenL : L.length = 8 := by
    rw [hLdef]
    simp only [List.length_append]
    omega
  set raw := pyFmt 4 y ++ pyFmt 2 m ++ pyFmt 2 d with hrawdef
  have hdata : raw = String.mk L := by
    have h1 : raw.data = L := by
      rw [hrawdef]
      show ((pyFmt 4 y).data ++ (pyFmt 2 m).data) ++ (pyFmt 2 d).data = L
      rw [hLdef, List.append_assoc]
      rfl
    conv_lhs => rw [show raw = String.mk raw.data from rfl]
    rw [h1]
  have hstrip : pyStrip raw = raw := by
    rw [hdata]
    exact pyStrip_digits L hdigL
  have hlen8 : raw.length = 8 := by
    rw [hdata, String.length_mk, hlenL]
  have hne : ¬(raw = "") := by
    intro h
    rw [h] at hlen8
    exact absurd hlen8 (by decide)
  have hne6 : ¬(raw = "000000") := by
    intro h
    rw [h] at hlen8
    exact absurd hlen8 (by decide)
  have hne0 : ¬(raw = "0") := by
    intro h
    rw [h] at hlen8
    exact absurd hlen8 (by decide)
  have htoL : raw.toList = L := by
    rw [hdata]
    rfl
  have hslice1 : sliceNat raw.toList 0 4 = some y := by
    have hseg : (raw.toList.drop 0).take (4 - 0) = l4 := by
      rw [htoL, List.drop_zero, hLdef]
      exact List.take_left' h4
    rw [sliceNat_of_digits raw.toList 0 4 l4 hseg
      (by intro hh; rw [hh] at h4; exact absurd h4 (by decide))
      (fun c hc => pyFmt_all_digit 4 y c hc)]
    rw [show digitsVal l4 = y from digitsVal_pyFmt 4 y]
  have hslice2 : sliceNat raw.toList 2 4 = some (digitsVal (l4.drop 2)) := by
    have hseg : (raw.toList.drop 2).take (4 - 2) = l4.drop 2 := by
      rw [htoL, hLdef, List.drop_append_eq_append_drop]
      rw [show (2 : ℕ) - l4.length = 0 by omega, List.drop_zero]
      refine List.take_left' ?_
      rw [List.length_drop]
      omega
    refine sliceNat_of_digits raw.toList 2 4 (l4.drop 2) hseg ?_ ?_
    · intro hh
      have hlen2 := congrArg List.length hh
      rw [List.length_drop, h4] at hlen2
      exact absurd hlen2 (by decide)
    · intro c hc
      exact pyFmt_all_digit 4 y c (List.drop_subset 2 l4 hc)
  have hslice3 : sliceNat raw.toList 4 8 = some (m * 100 + d) := by
    have hseg : (raw.toList.drop 4).take (8 - 4) = lm ++ ld := by
      rw [htoL, hLdef, List.drop_append_eq_append_drop]
      rw [show (4 : ℕ) - l4.length = 0 by omega, List.drop_zero]
      rw [show l4.drop 4 = [] from List.drop_eq_nil_of_le (by omega)]
      rw [List.nil_append]
      apply List.take_of_length_le
      rw [List.length_append]
      omega
    have hs3 : sliceNat raw.toList 4 8 = some (digitsVal (lm ++ ld)) := by
      refine sliceNat_of_digits raw.toList 4 8 (lm ++ ld) hseg ?_ ?_
      · intro hh
        rcases List.append_eq_nil.mp hh with ⟨h1, _⟩
        rw [h1] at hlm
        exact absurd hlm (by decide)
      · intro c hc
        rcases List.mem_append.mp hc with hc | hc
        · exact pyFmt_all_digit 2 m c hc
        · exact pyFmt_all_digit 2 d c hc
    have hv : digitsVal (lm ++ ld) = m * 100 + d := by
      rw [digitsVal_append]
      rw [show digitsVal lm = m from digitsVal_pyFmt 2 m,
        show digitsVal ld = d from digitsVal_pyFmt 2 d, hld, hp2]
    rw [hs3, hv]
  have hday : m * 100 + d > 31 := by omega
  simp only [parse_vermont_date, hstrip, hslice1, hslice2, hslice3]
  simp [hne, hne6, hne0, hlen8, hday]


/-- A four-digit prefix, a dash and a valid month pattern satisfy the `YYYY-MM` bucket shape. -/
theorem matchesMonthBucket_of (l : List Char) (h4 : l.length = 4)
    (hd : ∀ c ∈ l, isDigitChar c = true) (m1 m2 : Char)
    (hm : (m1 = '0' ∧ '1' ≤ m2 ∧ m2 ≤ '9') ∨ (m1 = '1' ∧ '0' ≤ m2 ∧ m2 ≤ '2')) :
    matchesMonthBucket ⟨l ++ '-' :: [m1, m2]⟩ = true := by
  rcases l with _ | ⟨a, _ | ⟨b, _ | ⟨c, _ | ⟨e, _ | ⟨f, tl⟩⟩⟩⟩⟩ <;> simp at h4
  have ha := hd a (by simp)
  have hb := hd b (by simp)
  have hc := hd c (by simp)
  have he := hd e (by simp)
  simp only [matchesMonthBucket]
  rcases hm with ⟨rfl, hm1, hm2⟩ | ⟨rfl, hm1, hm2⟩ <;> simp [ha, hb, hc, he, hm1, hm2]

/-- A four-digit prefix, a dash and a formatted month 1-12 satisfy the bucket shape. -/
theorem matchesMonthBucket_append (l : List Char) (h4 : l.length = 4)
    (hd : ∀ c ∈ l, isDigitChar c = true) (mm : Nat) (hm1 : 1 ≤ mm) (hm2 : mm ≤ 12) :
    matchesMonthBucket ⟨l ++ '-' :: (pyFmt 2 mm).toList⟩ = true := by
  interval_cases mm
  all_goals first
    | (rw [show (pyFmt 2 1).toList = ['0', '1'] from by decide]; exact matchesMonthBucket_of l h4 hd '0' '1' (by decide))
    | (rw [show (pyFmt 2 2).toList = ['0', '2'] from by decide]; exact matchesMonthBucket_of l h4 hd '0' '2' (by decide))
    | (rw [show (pyFmt 2 3).toList = ['0', '3'] from by decide]; exact matchesMonthBucket_of l h4 hd '0' '3' (by decide))
    | (rw [show (pyFmt 2 4).toList = ['0', '4'] from by decide]; exact matchesMonthBucket_of l h4 hd '0' '4' (by decide))
    | (rw [show (pyFmt 2 5).toList = ['0', '5'] from by decide]; exact matchesMonthBucket_of l h4 hd '0' '5' (by decide))
    | (rw [show (pyFmt 2 6).toList = ['0', '6'] from by decide]; exact matchesMonthBucket_of l h4 hd '0' '6' (by decide))
    | (rw [show (pyFmt 2 7).toList = ['0', '7'] from by decide]; exact matchesMonthBucket_of l h4 hd '0' '7' (by decide))
    | (rw [show (pyFmt 2 8).toList = ['0', '8'] from by decide]; exact matchesMonthBucket_of l h4 hd '0' '8' (by decide))
    | (rw [show (pyFmt 2 9).toList = ['0', '9'] from by decide]; exact matchesMonthBucket_of l h4 hd '0' '9' (by decide))
    | (rw [show (pyFmt 2 10).toList = ['1', '0'] from by decide]; exact matchesMonthBucket_of l h4 hd '1' '0' (by decide))
    | (rw [show (pyFmt 2 11).toList = ['1', '1'] from by decide]; exact matchesMonthBucket_of l h4 hd '1' '1' (by decide))
    | (rw [show (pyFmt 2 12).toList = ['1', '2'] from by decide]; exact matchesMonthBucket_of l h4 hd '1' '2' (by decide))

/-- C10: the Colorado year derivation is not a function of the input
alone: for a file-name stem with no 4-digit numeric token, the inferred
year is `pd.Timestamp.today().year`, so two runs over the same input in
different calendar years produce different month labels in the output. -/
theorem C10_year_depends_on_today (stem : String) (today1 today2 m : Nat)
    (h : ∀ t ∈ stemTokens stem, ¬(pyIsDigit t = true ∧ t.length = 4))
    (hne : today1 ≠ today2) :
    infer_year_from_filename stem today1 = today1
  ∧ infer_year_from_filename stem today2 = today2
  ∧ coloradoTimeLabel (infer_year_from_filename stem today1) m ≠
      coloradoTimeLabel (infer_year_from_filename stem today2) m := by
  have hfind : (stemTokens stem).find? (fun t => pyIsDigit t && t.length = 4) = none := by
    rw [List.find?_eq_none]
    intro t ht
    have h2 := h t ht
    simp only [Bool.and_eq_true, decide_eq_true_eq]
    tauto
  have h1 : infer_year_from_filename stem today1 = today1 := by
    unfold infer_year_from_filename
    rw [hfind]
  have h2 : infer_year_from_filename stem today2 = today2 := by
    unfold infer_year_from_filename
    rw [hfind]
  refine ⟨h1, h2, ?_⟩
  rw [h1, h2]
  intro heq
  unfold coloradoTimeLabel at heq
  have hdata := congrArg String.data heq
  simp only [String.data_append] at hdata
  rw [List.append_assoc, List.append_assoc] at hdata
  have hcancel := List.append_cancel_right hdata
  have hinj : pyFmt 4 today1 = pyFmt 4 today2 := by
    conv_lhs => rw [show pyFmt 4 today1 = String.mk (pyFmt 4 today1).data from rfl]
    rw [hcancel]
  exact hne (pyFmt_inj 4 today1 today2 hinj)

/-- Rewriting of the `YYYY-MM` concatenation as one character list. -/
theorem appendBucket_eq (a b : String) :
    a ++ "-" ++ b = String.mk (a.toList ++ '-' :: b.toList) := by
  have h1 : (a ++ "-" ++ b).data = a.toList ++ '-' :: b.toList := by
    show (a.data ++ "-".data) ++ b.data = _
    rw [List.append_assoc]
    rfl
  conv_lhs => rw [show a ++ "-" ++ b = String.mk (a ++ "-" ++ b).data from rfl]
  rw [h1]

/-- C7 (amended): under the explicit year/month-fields strategy, a
Maryland record yields no normalized record exactly when the year or the
month field is absent; a record with both fields present is always
emitted, its bucket being the zero-padded `YYYY-MM` string of the two
values, and that bucket matches `^\d{4}-(0[1-9]|1[0-2])$` whenever
0 ≤ year < 10000 and 1 ≤ month ≤ 12 (an out-of-range month is not
dropped).  Illinois's Month/Year strings yield `YYYY-MM` for a parsed
year and valid month, the placeholder `YYYY-01` for a year without a
month, and are dropped when no year parses. -/
theorem C7_year_month_buckets :
    (∀ y m : Option Int, marylandTime y m = none ↔ (y = none ∨ m = none))
  ∧ (∀ y m : Int, 0 ≤ y → y < 10000 → 1 ≤ m → m ≤ 12 →
      marylandTime (some y) (some m) = some (pyFmtInt 4 y ++ "-" ++ pyFmtInt 2 m)
      ∧ matchesMonthBucket (pyFmtInt 4 y ++ "-" ++ pyFmtInt 2 m) = true)
  ∧ (∀ (s : String) (y m : Nat), parse_month_year (some s) = (some y, some m) → y ≠ 0 → m ≠ 0 →
      illinoisTime (some s) = some (pyFmt 4 y ++ "-" ++ pyFmt 2 m))
  ∧ (∀ (s : String) (y : Nat), parse_month_year (some s) = (some y, none) → y ≠ 0 →
      illinoisTime (some s) = some (pyFmt 4 y ++ "-01"))
  ∧ (∀ s : String, (parse_month_year (some s)).1 = none → illinoisTime (some s) = none) := by
  refine ⟨?_, ?_, ?_, ?_, ?_⟩
  · intro y m
    cases y <;> cases m <;> simp [marylandTime]
  · intro y m hy0 hy1 hm1 hm2
    have hfy : pyFmtInt 4 y = pyFmt 4 y.toNat := by
      unfold pyFmtInt
      rw [if_pos hy0]
    have hfm : pyFmtInt 2 m = pyFmt 2 m.toNat := by
      unfold pyFmtInt
      rw [if_pos (by omega)]
    refine ⟨rfl, ?_⟩
    rw [hfy, hfm, appendBucket_eq]
    refine matchesMonthBucket_append _ ?_ ?_ m.toNat (by omega) (by omega)
    · refine pyFmt_length 4 y.toNat (by omega) ?_
      have : (10:ℕ) ^ 4 = 10000 := by norm_num
      omega
    · exact fun c hc => pyFmt_all_digit 4 y.toNat c hc
  · intro s y m hp hy hm
    unfold illinoisTime
    rw [hp]
    simp [optTruthy, hy, hm]
  · intro s y hp hy
    unfold illinoisTime
    rw [hp]
    simp [optTruthy, hy]
  · intro s hp
    unfold illinoisTime
    cases hpm : parse_month_year (some s) with
    | mk y m =>
      rw [hpm] at hp
      simp at hp
      rw [hp]
      simp [optTruthy]

/-- Counterexample for C7: Maryland month 13 is not dropped; the record
is emitted with bucket "2020-13", which violates the bucket pattern. -/
theorem C7_counterexample :
    marylandTime (some 2020) (some 13) = some "2020-13"
  ∧ matchesMonthBucket "2020-13" = false := by
  refine ⟨by decide, by decide⟩

/-- Witness for C7 at concrete inputs. -/
theorem C7_year_month_buckets_witness :
    marylandTime (some 2020) (some 5) = some (pyFmtInt 4 2020 ++ "-" ++ pyFmtInt 2 5)
  ∧ matchesMonthBucket (pyFmtInt 4 2020 ++ "-" ++ pyFmtInt 2 5) = true
  ∧ pyFmtInt 4 2020 ++ "-" ++ pyFmtInt 2 5 = "2020-05"
  ∧ parse_month_year (some "5/2021") = (some 2021, some 5)
  ∧ illinoisTime (some "5/2021") = some (pyFmt 4 2021 ++ "-" ++ pyFmt 2 5)
  ∧ parse_month_year (some "2020-13") = (some 2020, none)
  ∧ illinoisTime (some "2020-13") = some (pyFmt 4 2020 ++ "-01")
  ∧ (parse_month_year (some "nope")).1 = none
  ∧ illinoisTime (some "nope") = none :=
  ⟨(C7_year_month_buckets.2.1 2020 5 (by decide) (by decide) (by decide) (by decide)).1,
   (C7_year_month_buckets.2.1 2020 5 (by decide) (by decide) (by decide) (by decide)).2,
   by decide,
   by decide,
   C7_year_month_buckets.2.2.1 "5/2021" 2021 5 (by decide) (by decide) (by decide),
   by decide,
   C7_year_month_buckets.2.2.2.1 "2020-13" 2020 (by decide) (by decide),
   by decide,
   C7_year_month_buckets.2.2.2.2 "nope" (by decide)⟩

/-- Summing a constant-zero map gives zero. -/
theorem sum_map_zero_q (cs : List String) : (cs.map (fun _ => (0:ℚ))).sum = 0 := by
  induction cs with
  | nil => simp
  | cons c rest ih => simp [ih]

/-- Exchange of the two summations of a rectangular table. -/
theorem list_sum_comm (ts : List String) (cs : List String) (f : String → String → ℚ) :
    (ts.map (fun t => (cs.map (f t)).sum)).sum =
      (cs.map (fun c => (ts.map (fun t => f t c)).sum)).sum := by
  induction ts with
  | nil => simp [sum_map_zero_q]
  | cons t rest ih =>
    simp only [List.map_cons, List.sum_cons, ih]
    rw [← List.sum_map_add]

/-- A sum of integer-valued rationals is integer-valued. -/
theorem sum_intCast_list (l : List ℚ) (h : ∀ q ∈ l, ∃ z : ℤ, q = (z:ℚ)) :
    ∃ z : ℤ, l.sum = (z:ℚ) := by
  induction l with
  | nil => exact ⟨0, by simp⟩
  | cons q rest ih =>
    obtain ⟨z, hz⟩ := h q (by simp)
    obtain ⟨w, hw⟩ := ih (fun q hq => h q (by simp [hq]))
    exact ⟨z + w, by simp [hz, hw]⟩

/-- Truncation is the identity on integers. -/
theorem pyTrunc_intCast (z : ℤ) : pyTrunc (z:ℚ) = z := by
  unfold pyTrunc
  split_ifs
  · exact Int.floor_intCast z
  · exact Int.ceil_intCast z

/-- Truncation commutes with sums of integer-valued rationals. -/
theorem pyTrunc_sum (l : List ℚ) (h : ∀ q ∈ l, ∃ z : ℤ, q = (z:ℚ)) :
    pyTrunc l.sum = (l.map pyTrunc).sum := by
  induction l with
  | nil =>
    show pyTrunc 0 = 0
    rw [show (0:ℚ) = ((0:ℤ):ℚ) by norm_num, pyTrunc_intCast]
  | cons q rest ih =>
    obtain ⟨z, hz⟩ := h q (by simp)
    obtain ⟨w, hw⟩ := sum_intCast_list rest (fun q hq => h q (by simp [hq]))
    simp only [List.sum_cons, List.map_cons]
    rw [hz, hw]
    have hmap : (rest.map pyTrunc).sum = w := by
      rw [← ih (fun q hq => h q (by simp [hq])), hw, pyTrunc_intCast]
    rw [hmap, pyTrunc_intCast]
    rw [show ((z:ℚ) + (w:ℚ)) = (((z + w : ℤ)):ℚ) by push_cast; ring, pyTrunc_intCast]

/-- Pivot cells of integer-weighted records are integer-valued. -/
theorem cellSum_int (recs : List NRec) (h : ∀ r ∈ recs, ∃ z : ℤ, r.wt = (z:ℚ))
    (t c : String) : ∃ z : ℤ, cellSum recs t c = (z:ℚ) := by
  apply sum_intCast_list
  intro q hq
  simp only [List.mem_map] at hq
  obtain ⟨r, hr, rfl⟩ := hq
  exact h r (List.mem_filter.mp hr).1

/-- All cells of the monthly table are integer-valued when the weights are. -/
theorem monthlyRow_cells_int (recs : List NRec) (h : ∀ r ∈ recs, ∃ z : ℤ, r.wt = (z:ℚ)) :
    ∀ row ∈ monthlyTable recs, ∀ c, ∃ z : ℤ, row.cells c = (z:ℚ) := by
  intro row hrow c
  rcases List.mem_append.mp hrow with hmem | hmem
  · obtain ⟨t, _, rfl⟩ := List.mem_map.mp hmem
    exact cellSum_int recs h t c
  · rw [List.mem_singleton.mp hmem]
    apply sum_intCast_list
    intro q hq
    obtain ⟨t, _, rfl⟩ := List.mem_map.mp hq
    exact cellSum_int recs h t c

/-- C3 (amended): in the Monthly Category Table before the integer cast,
every row's total equals the sum of its category cells and the grand-total
row is the column-wise sum of the month rows — including with fractional
weights; after the per-cell integer cast the same invariants hold whenever
every record weight is an integer.  (With fractional weights the cast can
break them, see the counterexample.) -/
theorem C3_table_total_invariant (recs : List NRec) :
    (∀ row ∈ monthlyTable recs, row.total = (illinoisCategories.map row.cells).sum)
  ∧ ((grandRow recs).total = ((timesOf recs).map (fun t => (pivotRow recs t).total)).sum
      ∧ ∀ c, (grandRow recs).cells c = ((timesOf recs).map (fun t => (pivotRow recs t).cells c)).sum)
  ∧ ((∀ r ∈ recs, ∃ z : ℤ, r.wt = (z:ℚ)) →
      (∀ row ∈ castTable recs, row.total = (illinoisCategories.map row.cells).sum)
      ∧ ∀ c, (castRow (grandRow recs)).cells c =
          ((timesOf recs).map (fun t => (castRow (pivotRow recs t)).cells c)).sum) := by
  have hrat : ∀ row ∈ monthlyTable recs, row.total = (illinoisCategories.map row.cells).sum := by
    intro row hrow
    rcases List.mem_append.mp hrow with hmem | hmem
    · obtain ⟨t, _, rfl⟩ := List.mem_map.mp hmem
      rfl
    · rw [List.mem_singleton.mp hmem]
      show ((timesOf recs).map (fun t => (pivotRow recs t).total)).sum = _
      show ((timesOf recs).map (fun t => (illinoisCategories.map (fun c => cellSum recs t c)).sum)).sum = _
      rw [list_sum_comm]
      rfl
  refine ⟨hrat, ⟨rfl, fun c => rfl⟩, ?_⟩
  intro hint
  have hcells := monthlyRow_cells_int recs hint
  constructor
  · intro row hrow
    obtain ⟨r, hr, rfl⟩ := List.mem_map.mp hrow
    show pyTrunc r.total = _
    rw [hrat r hr]
    rw [pyTrunc_sum]
    · show ((illinoisCategories.map r.cells).map pyTrunc).sum = _
      rw [List.map_map]
      rfl
    · intro q hq
      obtain ⟨c, _, rfl⟩ := List.mem_map.mp hq
      exact hcells r hr c
  · intro c
    show pyTrunc ((grandRow recs).cells c) = _
    show pyTrunc (((timesOf recs).map (fun t => cellSum recs t c)).sum) = _
    rw [pyTrunc_sum]
    · rw [List.map_map]
      rfl
    · intro q hq
      obtain ⟨t, _, rfl⟩ := List.mem_map.mp hq
      exact cellSum_int recs hint t c

/-- Counterexample for C3: with two half-weight records the cast table's
rows have total 1 but category sum 0, so the invariant fails after the
cast, though it holds before it. -/
theorem C3_counterexample :
    ((castTable fracRecords).map (fun r => (r.time, r.total, (illinoisCategories.map r.cells).sum))) =
      [("2005-01", 1, 0), ("total", 1, 0)]
  ∧ ((monthlyTable fracRecords).map (fun r => (r.time, r.total, (illinoisCategories.map r.cells).sum))) =
      [("2005-01", 1, 1), ("total", 1, 1)] := by
  constructor
  · simp [castTable, monthlyTable, timesOf, fracRecords, pivotRow, grandRow, castRow, cellSum,
      illinoisCategories, pyTrunc]
    norm_num
  · simp [monthlyTable, timesOf, fracRecords, pivotRow, grandRow, cellSum, illinoisCategories]
    norm_num

/-- Witness for C3 at integer-weighted records. -/
theorem C3_table_total_invariant_witness :
    (∀ r ∈ intRecords, ∃ z : ℤ, r.wt = (z:ℚ))
  ∧ ((castTable intRecords).map (fun r => (r.time, r.total, (illinoisCategories.map r.cells).sum))) =
      [("2022-01", 6, 6), ("total", 6, 6)]
  ∧ (∀ row ∈ castTable intRecords, row.total = (illinoisCategories.map row.cells).sum) := by
  have hint : ∀ r ∈ intRecords, ∃ z : ℤ, r.wt = (z:ℚ) := by
    intro r hr
    simp only [intRecords, List.mem_cons, List.mem_singleton] at hr
    rcases hr with rfl | rfl | h
    · exact ⟨4, by norm_num⟩
    · exact ⟨2, by norm_num⟩
    · cases h
  refine ⟨hint, ?_, ((C3_table_total_invariant intRecords).2.2 hint).1⟩
  simp [castTable, monthlyTable, timesOf, intRecords, pivotRow, grandRow, castRow, cellSum,
    illinoisCategories, pyTrunc]

/-- C8 (amended): Nevada's snapshot report produces a table of exactly
one non-sentinel row — whose time value is the report's as-of month
`YYYY-MM` (default "2023-06"), never the sentinel "total" — with every
category count in the `Other` column and the total equal to it, followed
by a sentinel "total" row with the same values. -/
theorem C8_snapshot_table (capture : Option (String × String)) (suspended revoked : Nat)
    (hcap : ∀ ymo : String × String, capture = some ymo → ymo.1.length = 4 ∧ ymo.2.length = 2) :
    parse_nevada_report capture suspended revoked =
      [⟨nevadaAsOfDate capture, 0, 0, 0, 0, suspended + revoked, suspended + revoked⟩,
       ⟨"total", 0, 0, 0, 0, suspended + revoked, suspended + revoked⟩]
  ∧ nevadaAsOfDate capture ≠ "total" := by
  refine ⟨rfl, ?_⟩
  cases capture with
  | none => decide
  | some ymo =>
    obtain ⟨h1, h2⟩ := hcap ymo rfl
    intro heq
    have hlen := congrArg String.length heq
    rw [show nevadaAsOfDate (some ymo) = ymo.1 ++ "-" ++ ymo.2 from rfl] at hlen
    rw [String.length_append, String.length_append, h1, h2] at hlen
    exact absurd hlen (by decide)

/-- Witness for C8 at a concrete as-of capture. -/
theorem C8_snapshot_table_witness :
    parse_nevada_report (some ("2019", "11")) 5 3 =
      [⟨nevadaAsOfDate (some ("2019", "11")), 0, 0, 0, 0, 8, 8⟩,
       ⟨"total", 0, 0, 0, 0, 8, 8⟩]
  ∧ nevadaAsOfDate (some ("2019", "11")) ≠ "total"
  ∧ nevadaAsOfDate (some ("2019", "11")) = "2019-11" :=
  ⟨(C8_snapshot_table (some ("2019", "11")) 5 3 (by intro ymo h; cases h; exact ⟨by decide, by decide⟩)).1,
   (C8_snapshot_table (some ("2019", "11")) 5 3 (by intro ymo h; cases h; exact ⟨by decide, by decide⟩)).2,
   by decide⟩

/-- Counterexample for C8: the single non-sentinel row's time value is
the default as-of month "2023-06", not the sentinel "total". -/
theorem C8_counterexample :
    (parse_nevada_report none 5 3).map (fun r => r.time) = ["2023-06", "total"]
  ∧ ("2023-06" : String) ≠ "total"
  ∧ (parse_nevada_report none 5 3).map (fun r => (r.ftpCt, r.ftaCt, r.roadSafetyCt, r.childSupportCt, r.otherCt, r.totalCt)) =
      [(0, 0, 0, 0, 8, 8), (0, 0, 0, 0, 8, 8)] := by
  refine ⟨by decide, by decide, by decide⟩


/-- C9: the cross-jurisdiction combiner prefers the `"total"` sentinel
row's values when one exists and otherwise recomputes by summing all
non-sentinel rows; when the table has neither a `Child_Support` nor a
`child_support` column, the summary's Child support value is 0 while Fees
carries the unadjusted FTP total. -/
theorem C9_combiner_preference (df : StateTable) :
    (∀ row, df.rows.find? (fun r => r.1 = "total") = some row →
      map_categories_to_output df = some ⟨
        (if "Other" ∈ df.cols then (row.2 "Other").getD 0 else 0),
        (if "FTP" ∈ df.cols then (row.2 "FTP").getD 0 else 0),
        (if "FTA" ∈ df.cols then (row.2 "FTA").getD 0 else 0),
        (if "child_support" ∈ df.cols && (row.2 "child_support").isSome then (row.2 "child_support").getD 0
         else if "Child_Support" ∈ df.cols && (row.2 "Child_Support").isSome then (row.2 "Child_Support").getD 0
         else 0),
        (if "road_safety" ∈ df.cols then (row.2 "road_safety").getD 0 else 0)⟩)
  ∧ (df.rows.find? (fun r => r.1 = "total") = none →
      (df.rows.filter (fun r => r.1 ≠ "total")).isEmpty = false →
      map_categories_to_output df = some ⟨
        (if "Other" ∈ df.cols then colSum (df.rows.filter (fun r => r.1 ≠ "total")) "Other" else 0),
        (if "FTP" ∈ df.cols then colSum (df.rows.filter (fun r => r.1 ≠ "total")) "FTP" else 0),
        (if "FTA" ∈ df.cols then colSum (df.rows.filter (fun r => r.1 ≠ "total")) "FTA" else 0),
        (if "child_support" ∈ df.cols then colSum (df.rows.filter (fun r => r.1 ≠ "total")) "child_support"
         else if "Child_Support" ∈ df.cols then colSum (df.rows.filter (fun r => r.1 ≠ "total")) "Child_Support"
         else 0),
        (if "road_safety" ∈ df.cols then colSum (df.rows.filter (fun r => r.1 ≠ "total")) "road_safety" else 0)⟩)
  ∧ ("child_support" ∉ df.cols → "Child_Support" ∉ df.cols →
      ∀ out, map_categories_to_output df = some out → out.childSupport = 0) := by
  refine ⟨?_, ?_, ?_⟩
  · intro row hfind
    unfold map_categories_to_output
    rw [hfind]
    by_cases h1 : ("child_support" ∈ df.cols && (row.2 "child_support").isSome) = true
    · simp [h1]
    · by_cases h2 : ("Child_Support" ∈ df.cols && (row.2 "Child_Support").isSome) = true
      · simp [h1, h2]
      · simp [h1, h2]
  · intro hfind hne
    unfold map_categories_to_output
    rw [hfind]
    rw [if_neg (by rw [hne]; simp)]
    by_cases h1 : "child_support" ∈ df.cols
    · simp [h1]
    · by_cases h2 : "Child_Support" ∈ df.cols
      · simp [h1, h2]
      · simp [h1, h2]
  · intro h1 h2 out hout
    unfold map_categories_to_output at hout
    cases hfind : df.rows.find? (fun r => r.1 = "total") with
    | some row =>
      rw [hfind] at hout
      simp only [h1, h2] at hout
      simp at hout
      rw [← hout]
    | none =>
      rw [hfind] at hout
      by_cases hempty : (df.rows.filter (fun r => r.1 ≠ "total")).isEmpty
      · rw [if_pos hempty] at hout
        cases hout
      · rw [if_neg hempty] at hout
        simp only [h1, h2] at hout
        simp at hout
        rw [← hout]

/-- Witness for C6: the valid date 2015-03-12, written "20150312", is
dropped by the Vermont parser. -/
theorem C6_vermont_yyyymmdd_dropped_witness :
    parse_vermont_date (some (pyFmt 4 2015 ++ pyFmt 2 3 ++ pyFmt 2 12)) = none
  ∧ pyFmt 4 2015 ++ pyFmt 2 3 ++ pyFmt 2 12 = "20150312"
  ∧ parse_vermont_date (some "20150312") = none :=
  ⟨C6_vermont_yyyymmdd_dropped 2015 3 12 (by decide) (by decide) (by decide) (by decide)
    (by decide) (by decide), by decide, by decide⟩

/-- Witness for C10: a Colorado stem with no 4-digit token inferred in
2024 and in 2025 gives different month labels for the same input. -/
theorem C10_year_depends_on_today_witness :
    (∀ t ∈ stemTokens "colorado data", ¬(pyIsDigit t = true ∧ t.length = 4))
  ∧ infer_year_from_filename "colorado data" 2024 = 2024
  ∧ infer_year_from_filename "colorado data" 2025 = 2025
  ∧ coloradoTimeLabel (infer_year_from_filename "colorado data" 2024) 3 ≠
      coloradoTimeLabel (infer_year_from_filename "colorado data" 2025) 3 := by
  have hh : ∀ t ∈ stemTokens "colorado data", ¬(pyIsDigit t = true ∧ t.length = 4) := by decide
  obtain ⟨h1, h2, h3⟩ := C10_year_depends_on_today "colorado data" 2024 2025 3 hh (by decide)
  exact ⟨hh, h1, h2, h3⟩

/-- Witness for C9: a table with a `"total"` row and no child-support
column reports the total row's values, Child support 0 and Fees equal to
the FTP cell. -/
theorem C9_combiner_preference_witness :
    map_categories_to_output sampleTable = some ⟨1, 3, 4, 0, 0⟩
  ∧ (∀ out, map_categories_to_output sampleTable = some out → out.childSupport = 0) := by
  have hfind : sampleTable.rows.find? (fun r => r.1 = "total") = some ("total", sampleCells) := by
    rfl
  have h := (C9_combiner_preference sampleTable).1 ("total", sampleCells) hfind
  constructor
  · rw [h]
    decide
  · exact fun out hout =>
      (C9_combiner_preference sampleTable).2.2 (by decide) (by decide) out hout
